import Mathlib

/-!
Shallow embedding of the reviews subsystem of `fastapi_eccommerce`
(`app/routers/reviews.py` together with the `Review` model of
`app/models/reviews.py`).  The database session is modelled as an explicit
state value threaded through each endpoint; SQL `select ... where` queries
become list filters over that state, `update` statements become maps, and
`raise HTTPException` becomes an `Except.error` carrying the business error,
returned together with the (unchanged-so-far) state.
-/

namespace FastapiEcommerce

/-- One row of the `reviews` table (`app/models/reviews.py`):
`id` (primary key), `user_id`, `product_id`, optional `comment`,
`comment_date` (server-assigned timestamp, modelled as `Nat`),
`grade` (integer column), `is_active` (boolean, default `True`). -/
structure Review where
  id : Nat
  user_id : Nat
  product_id : Nat
  comment : Option String
  comment_date : Nat
  grade : Int
  is_active : Bool
deriving DecidableEq, Repr

/-- The slice of the `products` table the router touches:
`id`, the `is_active` flag checked before creating a review, and the
denormalized `rating` column written by the aggregation step
(`None` models SQL `NULL`). -/
structure Product where
  id : Nat
  is_active : Bool
  rating : Option Int
deriving DecidableEq, Repr

/-- The authenticated principal delivered by `get_current_buyer`
(`current_user`): its `id` and `role` are the only fields the router reads. -/
structure User where
  id : Nat
  role : String
deriving DecidableEq, Repr

/-- Request body of `POST /reviews/` (the `ReviewCreate` schema):
`product_id`, `grade`, optional `comment`, as used by
`review.model_dump()` in `create_review`. -/
structure ReviewCreate where
  product_id : Nat
  grade : Int
  comment : Option String
deriving DecidableEq, Repr

/-- Database state visible to the router: the reviews and products tables
plus the primary-key counter that assigns `Review.id` on insert. -/
structure DB where
  reviews : List Review
  products : List Product
  nextReviewId : Nat
deriving DecidableEq, Repr

/-- The four business errors raised by the router
(`HTTPException` status codes 404, 409, 422, 403). -/
inductive ApiError where
  | NotFound
  | Conflict
  | ValidationError
  | Forbidden
deriving DecidableEq, Repr

/-- HTTP status code attached to each business error in the source. -/
def ApiError.status : ApiError → Nat
  | .NotFound => 404
  | .Conflict => 409
  | .ValidationError => 422
  | .Forbidden => 403

/-- Python's builtin `round` applied to the quotient `s / n` (with `n > 0`):
round half to even (banker's rounding), computed on integers.
`⌊s / n⌋` is the floor quotient and `r` the nonnegative remainder;
the fraction `r / n` is compared with `1/2` by comparing `2 * r` with `n`. -/
def pythonRound (s : Int) (n : Nat) : Int :=
  let f : Int := Int.fdiv s n
  let r : Int := s - f * n
  if 2 * r < n then f
  else if (n : Int) < 2 * r then f + 1
  else if f % 2 = 0 then f else f + 1

/-- The grades of the active reviews of product `pid`:
`select ReviewModel.grade where product_id == pid and is_active == True`. -/
def activeGrades (reviews : List Review) (pid : Nat) : List Int :=
  (reviews.filter (fun r => r.product_id == pid && r.is_active)).map (fun r => r.grade)

/-- The rating value computed by the aggregation step of `create_review` and
`delete_review`: `int(round(avg))` where `avg` is the arithmetic mean of the
active grades of the product, or `None` when `func.avg` returns `NULL`
(no active review). -/
def ratingValue (reviews : List Review) (pid : Nat) : Option Int :=
  let gs := activeGrades reviews pid
  if gs = [] then none
  else some (pythonRound gs.sum gs.length)

/-- `update(ProductModel).where(ProductModel.id == pid).values(rating=v)`. -/
def setRating (products : List Product) (pid : Nat) (v : Option Int) : List Product :=
  products.map (fun p => if p.id == pid then { p with rating := v } else p)

/-- `GET /reviews/` (`get_all_rewviews`): returns every review selected by
`where(ReviewModel.is_active == True)`; the session state is returned
unchanged since the handler only reads. -/
def get_all_rewviews (db : DB) : List Review × DB :=
  ((db.reviews.filter (fun r => r.is_active)), db)

/-- `POST /reviews/` (`create_review`).  In source order:
product-existence check (404), duplicate-review check (409) — note the
source filters only on `user_id` and `is_active`, not on `product_id` —
grade bounds check (422), insert of the new row with `is_active = True`
and server-assigned `comment_date`, then recomputation of the product's
rating from the now-current active set. -/
def create_review (review : ReviewCreate) (current_user : User) (now : Nat)
    (db : DB) : Except ApiError Review × DB :=
  if (db.products.find? (fun p => p.id == review.product_id && p.is_active)).isNone then
    (.error .NotFound, db)
  else if (db.reviews.find? (fun r => r.user_id == current_user.id && r.is_active)).isSome then
    (.error .Conflict, db)
  else if review.grade < 1 || review.grade > 5 then
    (.error .ValidationError, db)
  else
    let db_review : Review :=
      { id := db.nextReviewId
        user_id := current_user.id
        product_id := review.product_id
        comment := review.comment
        comment_date := now
        grade := review.grade
        is_active := true }
    let reviews1 := db.reviews ++ [db_review]
    let products1 := setRating db.products review.product_id (ratingValue reviews1 review.product_id)
    (.ok db_review, { reviews := reviews1, products := products1, nextReviewId := db.nextReviewId + 1 })

/-- `DELETE /reviews/{review_id}` (`delete_review`).  In source order:
existence check for an active review with the given id (404), permission
check `or_(ReviewModel.user_id == current_user.id, current_user.role == 'admin')`
(403), soft delete via `update ... values(is_active=False)`, then
recomputation of the rating of the deleted review's product. -/
def delete_review (review_id : Nat) (current_user : User)
    (db : DB) : Except ApiError String × DB :=
  match db.reviews.find? (fun r => r.id == review_id && r.is_active) with
  | none => (.error .NotFound, db)
  | some review =>
    if (db.reviews.find? (fun r => r.id == review_id && r.is_active &&
          (r.user_id == current_user.id || current_user.role == "admin"))).isNone then
      (.error .Forbidden, db)
    else
      let reviews1 := db.reviews.map (fun r =>
        if r.id == review_id then { r with is_active := false } else r)
      let products1 := setRating db.products review.product_id (ratingValue reviews1 review.product_id)
      (.ok "Review deleted", { db with reviews := reviews1, products := products1 })

/-! Concrete states used to exercise the endpoints. -/

/-- An active product with no rating yet. -/
def exProduct : Product := { id := 1, is_active := true, rating := none }

/-- Initial state: one active product, no reviews. -/
def exDB : DB := { reviews := [], products := [exProduct], nextReviewId := 1 }

/-- A buyer. -/
def exBuyerA : User := { id := 10, role := "buyer" }

/-- A second buyer. -/
def exBuyerB : User := { id := 11, role := "buyer" }

/-- An administrator. -/
def exAdmin : User := { id := 99, role := "admin" }

/-- Request: grade 4 for product 1. -/
def exCreate4 : ReviewCreate := { product_id := 1, grade := 4, comment := none }

/-- Request: grade 5 for product 1. -/
def exCreate5 : ReviewCreate := { product_id := 1, grade := 5, comment := none }

/-- State after buyer A posts grade 4 for product 1. -/
def exDB1 : DB := (create_review exCreate4 exBuyerA 0 exDB).2

/-- State after buyer A posts grade 4 and buyer B posts grade 5 for product 1. -/
def exDB2 : DB := (create_review exCreate5 exBuyerB 1 exDB1).2

/-- State after buyer A then soft-deletes their review (id 1) in `exDB2`. -/
def exDB2del : DB := (delete_review 1 exBuyerA exDB2).2

/-- A pre-existing active review by buyer A for a different product (id 2). -/
def bugReview : Review :=
  { id := 7, user_id := 10, product_id := 2, comment := none
    comment_date := 0, grade := 3, is_active := true }

/-- State where buyer A has an active review only for product 2, while
product 1 is active and has no reviews at all. -/
def bugDB : DB :=
  { reviews := [bugReview]
    products := [{ id := 1, is_active := true, rating := none },
                 { id := 2, is_active := true, rating := some 3 }]
    nextReviewId := 8 }

/-- The review row of `exDB1`. -/
def exReview1 : Review :=
  { id := 1, user_id := 10, product_id := 1, comment := none
    comment_date := 0, grade := 4, is_active := true }

/-- Like `exDB1` but with product 1 deactivated: an inactive product that
already has an active review by buyer A. -/
def exDB1i : DB :=
  { reviews := [exReview1]
    products := [{ id := 1, is_active := false, rating := some 4 }]
    nextReviewId := 2 }

/-- Request: grade 0 for product 1 (out of range). -/
def exCreate0 : ReviewCreate := { product_id := 1, grade := 0, comment := none }

/-- The review row added by buyer B's grade-5 create in `exDB1`. -/
def exReview2 : Review :=
  { id := 2, user_id := 11, product_id := 1, comment := none
    comment_date := 1, grade := 5, is_active := true }

/-! Helper lemmas about the embedded operations. -/

/-- Rows of `setRating products pid v` whose id is `pid` carry rating `v`. -/
lemma setRating_rating_of_id (products : List Product) (pid : Nat) (v : Option Int) :
    ∀ p ∈ setRating products pid v, p.id = pid → p.rating = v := by
  intro p hp hpid
  simp only [setRating, List.mem_map] at hp
  obtain ⟨q, -, rfl⟩ := hp
  by_cases h : q.id = pid
  · simp [h]
  · rw [if_neg (by simpa using h)] at hpid ⊢
    exact absurd hpid h

/-- `create_review` takes the 404 branch when the product query is empty. -/
lemma create_review_eq_notFound (review : ReviewCreate) (u : User) (now : Nat) (db : DB)
    (hp : db.products.find? (fun p => p.id == review.product_id && p.is_active) = none) :
    create_review review u now db = (.error .NotFound, db) := by
  simp [create_review, hp]

/-- `create_review` takes the 409 branch when the product query succeeds and
the (product-blind) duplicate query finds an active review of the author. -/
lemma create_review_eq_conflict (review : ReviewCreate) (u : User) (now : Nat) (db : DB)
    (hp : (db.products.find? (fun p => p.id == review.product_id && p.is_active)).isSome)
    (hr : (db.reviews.find? (fun r => r.user_id == u.id && r.is_active)).isSome) :
    create_review review u now db = (.error .Conflict, db) := by
  obtain ⟨x, hx⟩ := Option.isSome_iff_exists.mp hp
  obtain ⟨y, hy⟩ := Option.isSome_iff_exists.mp hr
  simp [create_review, hx, hy]

/-- `create_review` takes the 422 branch on an out-of-range grade once the
first two checks pass. -/
lemma create_review_eq_validation (review : ReviewCreate) (u : User) (now : Nat) (db : DB)
    (hp : (db.products.find? (fun p => p.id == review.product_id && p.is_active)).isSome)
    (hr : db.reviews.find? (fun r => r.user_id == u.id && r.is_active) = none)
    (hg : review.grade < 1 ∨ 5 < review.grade) :
    create_review review u now db = (.error .ValidationError, db) := by
  obtain ⟨x, hx⟩ := Option.isSome_iff_exists.mp hp
  rcases hg with hg | hg <;> simp [create_review, hx, hr, hg]

/-- Shape of a successful `create_review`: the persisted row and the two
table updates, read off from the source's success path. -/
lemma create_review_ok_inv (review : ReviewCreate) (u : User) (now : Nat) (db : DB)
    (rv : Review) (db' : DB)
    (h : create_review review u now db = (.ok rv, db')) :
    rv = { id := db.nextReviewId, user_id := u.id, product_id := review.product_id,
           comment := review.comment, comment_date := now, grade := review.grade,
           is_active := true } ∧
    db'.reviews = db.reviews ++ [rv] ∧
    db'.products = setRating db.products review.product_id
      (ratingValue db'.reviews review.product_id) ∧
    1 ≤ review.grade ∧ review.grade ≤ 5 := by
  unfold create_review at h
  split at h
  · simp at h
  · split at h
    · simp at h
    · split at h
      · simp at h
      · rename_i hg
        simp only [Prod.mk.injEq, Except.ok.injEq] at h
        obtain ⟨rfl, rfl⟩ := h
        simp only [Bool.or_eq_true, decide_eq_true_eq, not_or] at hg
        exact ⟨rfl, rfl, rfl, by omega, by omega⟩

/-- Shape of a successful `delete_review`: the found row, the soft-delete
update and the rating write, read off from the source's success path. -/
lemma delete_review_ok_inv (rid : Nat) (u : User) (db : DB) (msg : String) (db' : DB)
    (h : delete_review rid u db = (.ok msg, db')) :
    msg = "Review deleted" ∧
    ∃ r0, db.reviews.find? (fun r => r.id == rid && r.is_active) = some r0 ∧
      db'.reviews = db.reviews.map
        (fun r => if r.id == rid then { r with is_active := false } else r) ∧
      db'.products = setRating db.products r0.product_id
        (ratingValue db'.reviews r0.product_id) ∧
      db'.nextReviewId = db.nextReviewId := by
  unfold delete_review at h
  split at h
  · simp at h
  · rename_i r0 hfind
    split at h
    · simp at h
    · simp only [Prod.mk.injEq, Except.ok.injEq] at h
      obtain ⟨rfl, rfl⟩ := h
      exact ⟨rfl, r0, hfind, rfl, rfl, rfl⟩

/-- Any business error of `create_review` comes from one of its three checks,
in source order. -/
lemma create_review_error_classify (review : ReviewCreate) (u : User) (now : Nat) (db : DB)
    (e : ApiError) (h : (create_review review u now db).1 = Except.error e) :
    e = ApiError.NotFound ∧
      db.products.find? (fun p => p.id == review.product_id && p.is_active) = none ∨
    e = ApiError.Conflict ∧
      (db.reviews.find? (fun r => r.user_id == u.id && r.is_active)).isSome ∨
    e = ApiError.ValidationError ∧ (review.grade < 1 ∨ 5 < review.grade) := by
  unfold create_review at h
  split at h
  · rename_i hc
    simp only [Except.error.injEq] at h
    exact Or.inl ⟨h.symm, Option.isNone_iff_eq_none.mp hc⟩
  · split at h
    · rename_i hc
      simp only [Except.error.injEq] at h
      exact Or.inr (Or.inl ⟨h.symm, hc⟩)
    · split at h
      · rename_i hg
        simp only [Except.error.injEq] at h
        simp only [Bool.or_eq_true, decide_eq_true_eq] at hg
        exact Or.inr (Or.inr ⟨h.symm, hg⟩)
      · simp at h

/-- Any business error of `delete_review` comes from one of its two checks,
in source order. -/
lemma delete_review_error_classify (rid : Nat) (u : User) (db : DB)
    (e : ApiError) (h : (delete_review rid u db).1 = Except.error e) :
    e = ApiError.NotFound ∧
      db.reviews.find? (fun r => r.id == rid && r.is_active) = none ∨
    e = ApiError.Forbidden ∧
      db.reviews.find? (fun r => r.id == rid && r.is_active &&
        (r.user_id == u.id || u.role == "admin")) = none := by
  unfold delete_review at h
  split at h
  · rename_i hc
    simp only [Except.error.injEq] at h
    exact Or.inl ⟨h.symm, hc⟩
  · split at h
    · rename_i hc
      simp only [Except.error.injEq] at h
      exact Or.inr ⟨h.symm, Option.isNone_iff_eq_none.mp hc⟩
    · simp at h

/-- `create_review` either leaves the state untouched (its three check
branches) or returns a success value. -/
lemma create_review_snd_eq_or_ok (review : ReviewCreate) (u : User) (now : Nat) (db : DB) :
    (create_review review u now db).2 = db ∨
    ∃ rv, (create_review review u now db).1 = Except.ok rv := by
  unfold create_review
  split
  · exact Or.inl rfl
  · split
    · exact Or.inl rfl
    · split
      · exact Or.inl rfl
      · exact Or.inr ⟨_, rfl⟩

/-- `delete_review` either leaves the state untouched (its two check
branches) or returns a success value. -/
lemma delete_review_snd_eq_or_ok (rid : Nat) (u : User) (db : DB) :
    (delete_review rid u db).2 = db ∨
    ∃ msg, (delete_review rid u db).1 = Except.ok msg := by
  unfold delete_review
  split
  · exact Or.inl rfl
  · split
    · exact Or.inl rfl
    · exact Or.inr ⟨_, rfl⟩

/-- The product query of `create_review` succeeds when an active product
with the requested id is in the table. -/
lemma product_find_isSome (db : DB) (review : ReviewCreate)
    (hp : ∃ p ∈ db.products, p.id = review.product_id ∧ p.is_active = true) :
    (db.products.find? (fun p => p.id == review.product_id && p.is_active)).isSome := by
  rw [List.find?_isSome]
  obtain ⟨p, hmem, h1, h2⟩ := hp
  exact ⟨p, hmem, by simp [h1, h2]⟩

/-- The product query of `create_review` is empty when every product with
the requested id is inactive. -/
lemma product_find_eq_none (db : DB) (review : ReviewCreate)
    (hprod : ∀ p ∈ db.products, p.id = review.product_id → p.is_active = false) :
    db.products.find? (fun p => p.id == review.product_id && p.is_active) = none := by
  rw [List.find?_eq_none]
  intro p hp
  simp only [Bool.and_eq_true, beq_iff_eq, not_and]
  intro hid
  simp [hprod p hp hid]

/-- The duplicate query of `create_review` is empty when the author has no
active review at all. -/
lemma review_find_eq_none (db : DB) (u : User)
    (hr : ∀ r ∈ db.reviews, r.user_id = u.id → r.is_active = false) :
    db.reviews.find? (fun r => r.user_id == u.id && r.is_active) = none := by
  rw [List.find?_eq_none]
  intro r hmem
  simp only [Bool.and_eq_true, beq_iff_eq, not_and]
  intro h1
  simp [hr r hmem h1]

/-! Claim theorems. -/

/-- C4: a create request whose product is missing or inactive fails with
`NotFound` (HTTP 404) and leaves the state — in particular the reviews
table — unchanged: nothing is persisted. -/
theorem create_notFound_on_missing_product (review : ReviewCreate) (u : User) (now : Nat)
    (db : DB) (hprod : ∀ p ∈ db.products, p.id = review.product_id → p.is_active = false) :
    create_review review u now db = (.error .NotFound, db) ∧
    ApiError.status .NotFound = 404 := by
  refine ⟨create_review_eq_notFound review u now db ?_, rfl⟩
  rw [List.find?_eq_none]
  intro p hp
  simp only [Bool.and_eq_true, beq_iff_eq, not_and]
  intro hid
  simp [hprod p hp hid]

/-- Witness for C4: creating a review for the nonexistent product 3 in the
one-product state `exDB` fails with `NotFound` and changes nothing. -/
theorem create_notFound_on_missing_product_witness :
    create_review { product_id := 3, grade := 4, comment := none } exBuyerA 0 exDB
      = (.error .NotFound, exDB) ∧
    ApiError.status .NotFound = 404 :=
  create_notFound_on_missing_product _ _ _ _ (by decide)

/-- C6: a delete request whose review id matches no active review (the id is
nonexistent or the review is already inactive) fails with `NotFound`
(HTTP 404). -/
theorem delete_notFound_on_missing_review (rid : Nat) (u : User) (db : DB)
    (hrev : ∀ r ∈ db.reviews, r.id = rid → r.is_active = false) :
    delete_review rid u db = (.error .NotFound, db) ∧
    ApiError.status .NotFound = 404 := by
  have hfind : db.reviews.find? (fun r => r.id == rid && r.is_active) = none := by
    rw [List.find?_eq_none]
    intro r hr
    simp only [Bool.and_eq_true, beq_iff_eq, not_and]
    intro hid
    simp [hrev r hr hid]
  exact ⟨by simp [delete_review, hfind], rfl⟩

/-- Witness for C6: in `exDB2del` review 1 exists but is already inactive,
so deleting it again fails with `NotFound`. -/
theorem delete_notFound_on_missing_review_witness :
    delete_review 1 exBuyerA exDB2del = (.error .NotFound, exDB2del) ∧
    ApiError.status .NotFound = 404 :=
  delete_notFound_on_missing_review _ _ _ (by decide)

/-- C8: `get_all_rewviews` leaves the state unchanged and returns exactly
the reviews with `is_active = true`: every active review is included and no
inactive review is ever returned. -/
theorem listActive_exact (db : DB) :
    (get_all_rewviews db).2 = db ∧
    ∀ r : Review, r ∈ (get_all_rewviews db).1 ↔ r ∈ db.reviews ∧ r.is_active = true := by
  refine ⟨rfl, fun r => ?_⟩
  simp [get_all_rewviews, List.mem_filter]

/-- C10: whenever `create_review` or `delete_review` returns a business
error, the state is unchanged: no review row is added or modified and no
product rating is written, since every check precedes the first write. -/
theorem no_write_on_error :
    (∀ (review : ReviewCreate) (u : User) (now : Nat) (db : DB) (e : ApiError),
      (create_review review u now db).1 = .error e → (create_review review u now db).2 = db) ∧
    (∀ (rid : Nat) (u : User) (db : DB) (e : ApiError),
      (delete_review rid u db).1 = .error e → (delete_review rid u db).2 = db) := by
  constructor
  · intro review u now db e h
    rcases create_review_snd_eq_or_ok review u now db with h2 | ⟨rv, hok⟩
    · exact h2
    · rw [h] at hok
      exact absurd hok (by simp)
  · intro rid u db e h
    rcases delete_review_snd_eq_or_ok rid u db with h2 | ⟨msg, hok⟩
    · exact h2
    · rw [h] at hok
      exact absurd hok (by simp)

/-- Witness for C10: the failed create of a review for the missing product 3
leaves `exDB` unchanged. -/
theorem no_write_on_error_witness :
    (create_review { product_id := 3, grade := 4, comment := none } exBuyerA 0 exDB).2
      = exDB :=
  no_write_on_error.1 { product_id := 3, grade := 4, comment := none } exBuyerA 0 exDB
    ApiError.NotFound rfl

/-- C3: with an existing active product and no conflicting active review by
the author, a grade outside [1, 5] is rejected with `ValidationError`
(HTTP 422), grades 1 and 5 are accepted, and every review the service
persists has grade in [1, 5] and `is_active = true`. -/
theorem create_grade_validation :
    (∀ (review : ReviewCreate) (u : User) (now : Nat) (db : DB),
      (∃ p ∈ db.products, p.id = review.product_id ∧ p.is_active = true) →
      (∀ r ∈ db.reviews, r.user_id = u.id → r.is_active = false) →
      review.grade < 1 ∨ 5 < review.grade →
      create_review review u now db = (.error .ValidationError, db) ∧
        ApiError.status .ValidationError = 422) ∧
    (∀ (review : ReviewCreate) (u : User) (now : Nat) (db : DB),
      (∃ p ∈ db.products, p.id = review.product_id ∧ p.is_active = true) →
      (∀ r ∈ db.reviews, r.user_id = u.id → r.is_active = false) →
      review.grade = 1 ∨ review.grade = 5 →
      ∃ rv db', create_review review u now db = (.ok rv, db')) ∧
    (∀ (review : ReviewCreate) (u : User) (now : Nat) (db : DB) (rv : Review) (db' : DB),
      create_review review u now db = (.ok rv, db') →
      rv ∈ db'.reviews ∧ 1 ≤ rv.grade ∧ rv.grade ≤ 5 ∧ rv.is_active = true) := by
  refine ⟨?_, ?_, ?_⟩
  · intro review u now db hp hr hg
    exact ⟨create_review_eq_validation review u now db
      (product_find_isSome db review hp) (review_find_eq_none db u hr) hg, rfl⟩
  · intro review u now db hp hr hg
    cases hres : (create_review review u now db).1 with
    | error e =>
      rcases create_review_error_classify review u now db e hres with
        ⟨-, hn⟩ | ⟨-, hs⟩ | ⟨-, hb⟩
      · simpa [hn] using product_find_isSome db review hp
      · rw [review_find_eq_none db u hr] at hs
        exact absurd hs (by simp)
      · omega
    | ok rv =>
      refine ⟨rv, (create_review review u now db).2, ?_⟩
      rw [← Prod.mk.eta (p := create_review review u now db), hres]
  · intro review u now db rv db' h
    obtain ⟨hrv, hrevs, -, hg1, hg2⟩ := create_review_ok_inv review u now db rv db' h
    refine ⟨?_, ?_, ?_, ?_⟩
    · rw [hrevs]
      simp
    · rw [hrv]
      exact hg1
    · rw [hrv]
      exact hg2
    · rw [hrv]

/-- Witness for C3: in the fresh state `exDB`, a grade-0 create is rejected
with `ValidationError` and a grade-5 create succeeds. -/
theorem create_grade_validation_witness :
    (create_review exCreate0 exBuyerA 0 exDB = (.error .ValidationError, exDB) ∧
      ApiError.status .ValidationError = 422) ∧
    ∃ rv db', create_review exCreate5 exBuyerA 0 exDB = (.ok rv, db') :=
  ⟨create_grade_validation.1 exCreate0 exBuyerA 0 exDB (by decide) (by decide) (by decide),
   create_grade_validation.2.1 exCreate5 exBuyerA 0 exDB (by decide) (by decide) (by decide)⟩

/-- C5: deleting an existing active review owned by someone else fails with
`Forbidden` (HTTP 403) when the caller is not an admin, and the state — in
particular the review's active flag — is unchanged; an admin caller
succeeds regardless of ownership. -/
theorem delete_forbidden_unless_owner_or_admin :
    (∀ (rid : Nat) (u : User) (db : DB),
      (∃ r ∈ db.reviews, r.id = rid ∧ r.is_active = true) →
      (∀ r ∈ db.reviews, r.id = rid → r.user_id ≠ u.id) →
      u.role ≠ "admin" →
      delete_review rid u db = (.error .Forbidden, db) ∧
        ApiError.status .Forbidden = 403) ∧
    (∀ (rid : Nat) (u : User) (db : DB),
      (∃ r ∈ db.reviews, r.id = rid ∧ r.is_active = true) →
      u.role = "admin" →
      ∃ db', delete_review rid u db = (.ok "Review deleted", db')) := by
  constructor
  · intro rid u db hex hown hadm
    have hfirst : (db.reviews.find? (fun r => r.id == rid && r.is_active)).isSome := by
      rw [List.find?_isSome]
      obtain ⟨r, hmem, h1, h2⟩ := hex
      exact ⟨r, hmem, by simp [h1, h2]⟩
    obtain ⟨r0, hfind⟩ := Option.isSome_iff_exists.mp hfirst
    have hnone : db.reviews.find? (fun r => r.id == rid && r.is_active &&
        (r.user_id == u.id || u.role == "admin")) = none := by
      rw [List.find?_eq_none]
      intro r hmem
      simp only [Bool.and_eq_true, Bool.or_eq_true, beq_iff_eq, not_and]
      rintro ⟨h1, -⟩ (h3 | h3)
      · exact hown r hmem h1 h3
      · exact hadm h3
    exact ⟨by simp [delete_review, hfind, hnone], rfl⟩
  · intro rid u db hex hadm
    obtain ⟨r, hmem, h1, h2⟩ := hex
    cases hres : (delete_review rid u db).1 with
    | error e =>
      rcases delete_review_error_classify rid u db e hres with ⟨-, hn⟩ | ⟨-, hn⟩
      · exact absurd (List.find?_eq_none.mp hn r hmem) (by simp [h1, h2])
      · exact absurd (List.find?_eq_none.mp hn r hmem) (by simp [h1, h2, hadm])
    | ok msg =>
      have hpair : delete_review rid u db = (.ok msg, (delete_review rid u db).2) := by
        rw [← Prod.mk.eta (p := delete_review rid u db), hres]
      obtain ⟨hmsg, -⟩ := delete_review_ok_inv rid u db msg _ hpair
      exact ⟨(delete_review rid u db).2, by rw [hpair, hmsg]⟩

/-- Witness for C5: in `exDB2`, buyer B can not delete buyer A's review 1
(Forbidden, state unchanged), while the admin can. -/
theorem delete_forbidden_unless_owner_or_admin_witness :
    (delete_review 1 exBuyerB exDB2 = (.error .Forbidden, exDB2) ∧
      ApiError.status .Forbidden = 403) ∧
    ∃ db', delete_review 1 exAdmin exDB2 = (.ok "Review deleted", db') :=
  ⟨delete_forbidden_unless_owner_or_admin.1 1 exBuyerB exDB2
      (by decide) (by decide) (by decide),
   delete_forbidden_unless_owner_or_admin.2 1 exAdmin exDB2 (by decide) (by decide)⟩

/-- C9: the rejection checks of `create_review` run in the order
product-existence, duplicate-review, grade: a missing or inactive product
yields `NotFound` even when the grade is also out of range and a duplicate
active review also exists, and an active product with a duplicate active
review yields `Conflict` even when the grade is also out of range. -/
theorem create_check_priority :
    (∀ (review : ReviewCreate) (u : User) (now : Nat) (db : DB),
      (∀ p ∈ db.products, p.id = review.product_id → p.is_active = false) →
      review.grade < 1 ∨ 5 < review.grade →
      (∃ r ∈ db.reviews, r.user_id = u.id ∧ r.product_id = review.product_id ∧
        r.is_active = true) →
      (create_review review u now db).1 = .error .NotFound) ∧
    (∀ (review : ReviewCreate) (u : User) (now : Nat) (db : DB),
      (∃ p ∈ db.products, p.id = review.product_id ∧ p.is_active = true) →
      (∃ r ∈ db.reviews, r.user_id = u.id ∧ r.product_id = review.product_id ∧
        r.is_active = true) →
      review.grade < 1 ∨ 5 < review.grade →
      (create_review review u now db).1 = .error .Conflict) := by
  constructor
  · intro review u now db hprod _ _
    rw [create_review_eq_notFound review u now db (product_find_eq_none db review hprod)]
  · intro review u now db hp hdup _
    have hs : (db.reviews.find? (fun r => r.user_id == u.id && r.is_active)).isSome := by
      rw [List.find?_isSome]
      obtain ⟨r, hmem, h1, -, h3⟩ := hdup
      exact ⟨r, hmem, by simp [h1, h3]⟩
    rw [create_review_eq_conflict review u now db (product_find_isSome db review hp) hs]

/-- Witness for C9: with buyer A's active review for product 1 present and a
grade-0 request, the result is `NotFound` when product 1 is inactive
(`exDB1i`) and `Conflict` when it is active (`exDB1`). -/
theorem create_check_priority_witness :
    (create_review exCreate0 exBuyerA 0 exDB1i).1 = .error .NotFound ∧
    (create_review exCreate0 exBuyerA 0 exDB1).1 = .error .Conflict :=
  ⟨create_check_priority.1 exCreate0 exBuyerA 0 exDB1i (by decide) (by decide) (by decide),
   create_check_priority.2 exCreate0 exBuyerA 0 exDB1 (by decide) (by decide) (by decide)⟩

/-- C2: after every successful create (and, over a store with unique review
ids, every successful delete) each product row matching the affected
product id carries exactly `ratingValue` of the final review table — the
rounded mean of the active grades of that product; the rating is `None`
when no active review exists; and with active grades [4, 5] the stored
rating is 4, i.e. `round(4.5)` rounds half to even. -/
theorem create_delete_rating_matches_mean :
    (∀ (review : ReviewCreate) (u : User) (now : Nat) (db : DB) (rv : Review) (db' : DB),
      create_review review u now db = (.ok rv, db') →
      ∀ p ∈ db'.products, p.id = review.product_id →
        p.rating = ratingValue db'.reviews review.product_id) ∧
    (∀ (rid : Nat) (u : User) (db : DB) (msg : String) (db' : DB),
      (db.reviews.map (fun r => r.id)).Nodup →
      delete_review rid u db = (.ok msg, db') →
      ∀ r ∈ db.reviews, r.id = rid → r.is_active = true →
        ∀ p ∈ db'.products, p.id = r.product_id →
          p.rating = ratingValue db'.reviews r.product_id) ∧
    (∀ (reviews : List Review) (pid : Nat),
      activeGrades reviews pid = [] → ratingValue reviews pid = none) ∧
    (activeGrades exDB2.reviews 1 = [4, 5] ∧
      exDB2.products = [{ id := 1, is_active := true, rating := some 4 }] ∧
      pythonRound 9 2 = 4) := by
  refine ⟨?_, ?_, ?_, by decide, by decide, by decide⟩
  · intro review u now db rv db' h p hp hpid
    obtain ⟨-, -, hprods, -, -⟩ := create_review_ok_inv review u now db rv db' h
    exact setRating_rating_of_id db.products review.product_id _ p (hprods ▸ hp) hpid
  · intro rid u db msg db' hnodup h r hmem hid hact p hp hpid
    obtain ⟨-, r0, hfind, -, hprods, -⟩ := delete_review_ok_inv rid u db msg db' h
    have hr0mem := List.mem_of_find?_eq_some hfind
    have hr0id : r0.id = rid := by
      have := List.find?_some hfind
      simp only [Bool.and_eq_true, beq_iff_eq] at this
      exact this.1
    have hreq : r = r0 :=
      List.inj_on_of_nodup_map hnodup hmem hr0mem (by rw [hid, hr0id])
    rw [hreq]
    exact setRating_rating_of_id db.products r0.product_id _ p (hprods ▸ hp) (hreq ▸ hpid)
  · intro reviews pid h
    simp [ratingValue, h]

/-- Witness for C2: buyer B's grade-5 create in `exDB1` (where buyer A's
grade-4 review is active) succeeds, and product 1's stored rating is the
rounded mean of the active grades of the final state. -/
theorem create_delete_rating_matches_mean_witness :
    ({ id := 1, is_active := true, rating := some 4 } : Product).rating
      = ratingValue exDB2.reviews exCreate5.product_id :=
  create_delete_rating_matches_mean.1 exCreate5 exBuyerB 1 exDB1 exReview2 exDB2 rfl
    { id := 1, is_active := true, rating := some 4 } (by decide) (by decide)

/-- C7: a successful delete returns the confirmation "Review deleted",
removes no row (the table keeps its length), and rewrites exactly the rows
whose id is the target id, setting only `is_active := false` on them while
every other row is unchanged in place. -/
theorem delete_soft_frame (rid : Nat) (u : User) (db : DB) (msg : String) (db' : DB)
    (h : delete_review rid u db = (.ok msg, db')) :
    msg = "Review deleted" ∧
    db'.reviews.length = db.reviews.length ∧
    ∀ (i : Nat) (h1 : i < db.reviews.length) (h2 : i < db'.reviews.length),
      db'.reviews.get ⟨i, h2⟩ =
        (if (db.reviews.get ⟨i, h1⟩).id = rid
         then { db.reviews.get ⟨i, h1⟩ with is_active := false }
         else db.reviews.get ⟨i, h1⟩) := by
  obtain ⟨hmsg, r0, -, hrevs, -, -⟩ := delete_review_ok_inv rid u db msg db' h
  refine ⟨hmsg, by rw [hrevs, List.length_map], ?_⟩
  intro i h1 h2
  rw [List.get_eq_getElem, List.get_eq_getElem]
  simp only [hrevs, List.getElem_map, beq_iff_eq]

/-- Witness for C7: deleting review 1 in `exDB2` flips that row's
`is_active` flag in place. -/
theorem delete_soft_frame_witness :
    exDB2del.reviews.get ⟨0, (by decide)⟩ =
      (if (exDB2.reviews.get ⟨0, (by decide)⟩).id = 1
       then { exDB2.reviews.get ⟨0, (by decide)⟩ with is_active := false }
       else exDB2.reviews.get ⟨0, (by decide)⟩) :=
  (delete_soft_frame 1 exBuyerA exDB2 "Review deleted" exDB2del rfl).2.2 0
    (by decide) (by decide)

/-- C1: counterexample to the success half of the duplicate rule.  In
`bugDB` the author (buyer A) has no review for product 1 at all — the only
review in the store is for product 2 — product 1 exists and is active, and
the requested grade 5 is in range, yet `create_review` fails with
`Conflict`: the duplicate query of the source filters only on `user_id`
and `is_active` and ignores `product_id`, contradicting its own
"You already have review for this product" error detail. -/
theorem create_conflict_despite_other_product :
    (∀ r ∈ bugDB.reviews, r.product_id ≠ exCreate5.product_id) ∧
    (∃ p ∈ bugDB.products, p.id = exCreate5.product_id ∧ p.is_active = true) ∧
    1 ≤ exCreate5.grade ∧ exCreate5.grade ≤ 5 ∧
    create_review exCreate5 exBuyerA 0 bugDB = (.error .Conflict, bugDB) :=
  ⟨by decide, by decide, by decide, by decide, rfl⟩

end FastapiEcommerce
